import Mathlib

/-!
Verification development for the gofer remote-filesystem client
(pkg/sentry/fsimpl/gofer/gofer.go).

The Go code is shallowly embedded as pure Lean functions over explicit state.
Server calls, permission primitives and host syscalls are external
collaborators; their outcomes are passed in as oracle arguments and their
invocations are recorded in event lists, so that theorems can state that an
operation failed before contacting the server, closed a freshly opened
handle, and so on.

Machine integers are modelled as Nat (bitmask fields are uint32 values) and
Int (for signed reference counts, file descriptors and nanosecond
timestamps).
-/

set_option maxHeartbeats 1000000

namespace GoferSpec

/-! ## Linux ABI constants (pkg/abi/linux) -/

def STATX_TYPE : Nat := 0x001
def STATX_MODE : Nat := 0x002
def STATX_NLINK : Nat := 0x004
def STATX_UID : Nat := 0x008
def STATX_GID : Nat := 0x010
def STATX_ATIME : Nat := 0x020
def STATX_MTIME : Nat := 0x040
def STATX_CTIME : Nat := 0x080
def STATX_INO : Nat := 0x100
def STATX_SIZE : Nat := 0x200
def STATX_BLOCKS : Nat := 0x400
def STATX_BTIME : Nat := 0x800

def S_IFMT : Nat := 0xF000

def UTIME_NOW : Nat := 0x3FFFFFFF

/-- Access types used by vfs permission checks: MayExec = 1, MayWrite = 2,
MayRead = 4, matching the lowest three permission bits. -/
def MayRead : Nat := 4

def MayWrite : Nat := 2

/-! ## Errors, events, modes -/

/-- Errno-kind results returned by the client (syserror package). -/
inductive Err
  | eperm
  | eacces
  | eio
  | eopnotsupp
  | einval
deriving DecidableEq

/-- External calls made by dentry.setStat, in program order: the
vfs.CheckSetStat permission check, mnt.CheckBeginWrite, and the 9p
setattr round trip. -/
inductive Event
  | checkSetStat
  | beginWrite
  | serverSetAttr
deriving DecidableEq

/-- InteropMode, derived from the cache mount option (gofer.go:152-205). -/
inductive InteropMode
  | exclusive
  | writethrough
  | shared
deriving DecidableEq

/-! ## Handles and dentries -/

/-- A handle wraps an opened remote file (a 9p fid, represented by its
number; none models a nil p9.File) and possibly a host file descriptor
(fd < 0 means no host FD), as in gofer handle fields. -/
structure Handle where
  file : Option Nat
  fd : Int
deriving DecidableEq

/-- True when the handle carries a host file descriptor (Go: h.fd >= 0). -/
def Handle.hasHostFD (h : Handle) : Bool := decide (0 ≤ h.fd)

/-- The dentry state relevant to the claims (gofer.go:443-556).  The page
cache (fsutil.FileRangeSet), the dirty set (fsutil.DirtySet) and the mapping
set (memmap.MappingSet) are segment containers over byte offsets; they are
embedded as lists of disjoint half-open ranges.  Timestamps are nanoseconds
since the Unix epoch. -/
structure Dentry where
  refs : Int
  ino : Nat
  mode : Nat
  uid : Nat
  gid : Nat
  blockSize : Nat
  atime : Int
  mtime : Int
  ctime : Int
  btime : Int
  size : Nat
  nlink : Nat
  deleted : Bool
  cache : List (Nat × Nat)
  dirty : List (Nat × Nat)
  mappings : List (Nat × Nat)
  handle : Handle
  handleReadable : Bool
  handleWritable : Bool
deriving DecidableEq

/-! ## Range-set helpers (fsutil / memmap collaborators)

The segment-set operations used by setStat live outside this repository
slice (pkg/sentry/fs/fsutil, pkg/sentry/memmap); they are modelled from the
spec as operations on lists of half-open byte ranges. -/

/-- Membership of a byte offset in a list of half-open ranges. -/
def inRanges (rs : List (Nat × Nat)) (x : Nat) : Bool :=
  rs.any fun r => decide (r.1 ≤ x) && decide (x < r.2)

/-- Clamp every range strictly below e, discarding what falls at or beyond
it (the SplitAt-then-remove shape of segment-set truncation). -/
def clampRangesBelow (rs : List (Nat × Nat)) (e : Nat) : List (Nat × Nat) :=
  (rs.map fun r => (r.1, min r.2 e)).filter fun r => decide (r.1 < r.2)

/-- Modelled from the spec: pages are 4096 bytes; pageRoundUp rounds a byte
offset up to the next page boundary. -/
def pageRoundUp (x : Nat) : Nat := ((x + 4095) / 4096) * 4096

/-- Modelled from the spec: fsutil.FileRangeSet.Truncate drops cached pages
at and beyond the new size (scenario: truncating 8192 to 3000 drops pages
beyond offset 4096), i.e. everything at or above pageRoundUp size; the
partial final page is kept (its tail is zeroed, which a range model does
not observe). -/
def cacheTruncate (rs : List (Nat × Nat)) (size : Nat) : List (Nat × Nat) :=
  clampRangesBelow rs (pageRoundUp size)

/-- Modelled from the spec: removing the interval of offsets s up to e from
every range of a segment set; used for DirtySet.KeepClean (mark a range not
dirty) and MappingSet.Invalidate (no mapping remains over the invalidated
range). -/
def rangeSubtract : List (Nat × Nat) → Nat → Nat → List (Nat × Nat)
  | [], _, _ => []
  | r :: rs, s, e =>
    (if r.1 < min r.2 s then [(r.1, min r.2 s)] else []) ++
    (if max r.1 e < r.2 then [(max r.1 e, r.2)] else []) ++ rangeSubtract rs s e

/-! ## Statx and setStat (gofer.go:729-848) -/

/-- The subset of linux.Statx consumed by dentry.setStat (mask plus the
settable payload fields).  Timestamps keep the Statx shape: seconds plus a
nanoseconds field whose value UTIME_NOW requests the current time. -/
structure Statx where
  mask : Nat
  mode : Nat
  uid : Nat
  gid : Nat
  size : Nat
  atimeSec : Int
  atimeNsec : Nat
  mtimeSec : Int
  mtimeNsec : Nat
deriving DecidableEq

/-- Modelled from the spec: dentryTimestampFromStatx converts a Statx
timestamp to nanoseconds since the Unix epoch. -/
def statxToNanos (sec : Int) (nsec : Nat) : Int := sec * 1000000000 + (nsec : Int)

/-- The mask bits setStat accepts (gofer.go:733). -/
def statxSettableMask : Nat :=
  STATX_MODE ||| STATX_UID ||| STATX_GID ||| STATX_ATIME ||| STATX_MTIME ||| STATX_SIZE

/-- Complement of statxSettableMask within uint32. -/
def statxNotSettableMask : Nat := 0xFFFFFFFF ^^^ statxSettableMask

/-- Mask clearing STATX_ATIME and STATX_MTIME within uint32
(Go: stat.Mask &^= linux.STATX_ATIME | linux.STATX_MTIME). -/
def maskClearTimes : Nat := 0xFFFFFFFF ^^^ (STATX_ATIME ||| STATX_MTIME)

/-- The local-timestamp setup of setStat outside InteropModeShared
(gofer.go:744-756): remember whether atime and mtime updates are handled
locally, strip their bits from the mask sent to the server, and, when a size
change carries no explicit mtime, request mtime = now by forcing the Statx
mtime nanoseconds to UTIME_NOW.  Returns (setLocalAtime, setLocalMtime,
updated Statx). -/
def setStatTimesSetup (stat : Statx) (interop : InteropMode) : Bool × Bool × Statx :=
  if interop = InteropMode.shared then (false, false, stat)
  else
    if (stat.mask &&& STATX_MTIME == 0) && (stat.mask &&& maskClearTimes &&& STATX_SIZE != 0) then
      (stat.mask &&& STATX_ATIME != 0, true,
        { stat with mask := stat.mask &&& maskClearTimes, mtimeNsec := UTIME_NOW })
    else
      (stat.mask &&& STATX_ATIME != 0, stat.mask &&& STATX_MTIME != 0,
        { stat with mask := stat.mask &&& maskClearTimes })

/-- Local mode update (gofer.go:790-792): the file type bits are preserved
and the permission bits come from the request. -/
def applyModeUpdate (d : Dentry) (stat : Statx) : Dentry :=
  if stat.mask &&& STATX_MODE ≠ 0 then { d with mode := (d.mode &&& S_IFMT) ||| stat.mode } else d

/-- Local uid update (gofer.go:793-795). -/
def applyUidUpdate (d : Dentry) (stat : Statx) : Dentry :=
  if stat.mask &&& STATX_UID ≠ 0 then { d with uid := stat.uid } else d

/-- Local gid update (gofer.go:796-798). -/
def applyGidUpdate (d : Dentry) (stat : Statx) : Dentry :=
  if stat.mask &&& STATX_GID ≠ 0 then { d with gid := stat.gid } else d

/-- Local atime update (gofer.go:799-805). -/
def applyAtimeUpdate (d : Dentry) (stat : Statx) (setLocalAtime : Bool) (now : Int) : Dentry :=
  if setLocalAtime then
    { d with atime := if stat.atimeNsec = UTIME_NOW then now else statxToNanos stat.atimeSec stat.atimeNsec }
  else d

/-- Local mtime update (gofer.go:806-812). -/
def applyMtimeUpdate (d : Dentry) (stat : Statx) (setLocalMtime : Bool) (now : Int) : Dentry :=
  if setLocalMtime then
    { d with mtime := if stat.mtimeNsec = UTIME_NOW then now else statxToNanos stat.mtimeSec stat.mtimeNsec }
  else d

/-- Local ctime update (gofer.go:813): every successful non-Shared setStat
with a nonzero mask stamps ctime = now. -/
def applyCtimeUpdate (d : Dentry) (now : Int) : Dentry := { d with ctime := now }

/-- The size-shrink tail of setStat (gofer.go:814-846): lower the size; if
it shrank, invalidate mappings over the truncated whole pages (only when the
page-rounded ends differ), drop cache pages beyond the new size, and mark
the dirty set clean over the new size up to the old page-rounded end. -/
def setStatTruncate (d : Dentry) (stat : Statx) : Dentry :=
  if stat.mask &&& STATX_SIZE ≠ 0 then
    if stat.size < d.size then
      { d with size := stat.size,
               mappings := if pageRoundUp d.size ≠ pageRoundUp stat.size then
                   rangeSubtract d.mappings (pageRoundUp stat.size) (pageRoundUp d.size)
                 else d.mappings,
               cache := cacheTruncate d.cache stat.size,
               dirty := rangeSubtract d.dirty stat.size (pageRoundUp d.size) }
    else { d with size := stat.size }
  else d

/-- The metadata part of the local updates (gofer.go:789-813), in program
order: mode, uid, gid, atime, mtime, ctime. -/
def setStatMetaUpdates (d : Dentry) (stat : Statx) (setLocalAtime setLocalMtime : Bool)
    (now : Int) : Dentry :=
  applyCtimeUpdate
    (applyMtimeUpdate
      (applyAtimeUpdate
        (applyGidUpdate (applyUidUpdate (applyModeUpdate d stat) stat) stat)
        stat setLocalAtime now)
      stat setLocalMtime now)
    now

/-- The local updates after a successful server call outside Shared mode
(gofer.go:789-846): the metadata updates followed by the size change. -/
def setStatLocalUpdates (d : Dentry) (stat : Statx) (setLocalAtime setLocalMtime : Bool)
    (now : Int) : Dentry :=
  setStatTruncate (setStatMetaUpdates d stat setLocalAtime setLocalMtime now) stat

/-- The state after the server setattr (gofer.go:782-846): in Shared mode
local metadata is deliberately not updated (revalidation will overwrite it);
otherwise the local updates run. -/
def setStatAfterServer (d : Dentry) (stat : Statx) (interop : InteropMode)
    (setLocalAtime setLocalMtime : Bool) (now : Int) : Dentry :=
  if interop = InteropMode.shared then d
  else setStatLocalUpdates d stat setLocalAtime setLocalMtime now

/-- Result of dentry.setStat: the resulting dentry state, the returned
error (none on success), and the external calls that were made. -/
structure SetStatResult where
  d : Dentry
  res : Option Err
  events : List Event
deriving DecidableEq

/-- Server phase of setStat (gofer.go:759-781): the setattr round trip is
issued only when the residual mask is nonzero, then the after-server state
update runs. -/
def setStatServerPhase (d : Dentry) (p : Bool × Bool × Statx) (interop : InteropMode)
    (now : Int) (serverRes : Option Err) : SetStatResult :=
  if p.2.2.mask ≠ 0 then
    match serverRes with
    | some e => ⟨d, some e, [Event.checkSetStat, Event.beginWrite, Event.serverSetAttr]⟩
    | none => ⟨setStatAfterServer d p.2.2 interop p.1 p.2.1 now, none,
               [Event.checkSetStat, Event.beginWrite, Event.serverSetAttr]⟩
  else
    ⟨setStatAfterServer d p.2.2 interop p.1 p.2.1 now, none,
     [Event.checkSetStat, Event.beginWrite]⟩

/-- dentry.setStat (gofer.go:729-848).  External outcomes are oracles:
checkRes for vfs.CheckSetStat, beginWriteRes for mnt.CheckBeginWrite,
serverRes for d.file.setAttr; now is the client clock reading. -/
def setStat (d : Dentry) (stat : Statx) (interop : InteropMode) (now : Int)
    (checkRes beginWriteRes serverRes : Option Err) : SetStatResult :=
  if stat.mask = 0 then ⟨d, none, []⟩
  else if stat.mask &&& statxNotSettableMask ≠ 0 then ⟨d, some Err.eperm, []⟩
  else
    match checkRes with
    | some e => ⟨d, some e, [Event.checkSetStat]⟩
    | none =>
      match beginWriteRes with
      | some e => ⟨d, some e, [Event.checkSetStat, Event.beginWrite]⟩
      | none => setStatServerPhase d (setStatTimesSetup stat interop) interop now serverRes

/-! ## statTo (gofer.go:710-727) -/

/-- Modelled from the spec: statxTimestampFromDentry splits nanoseconds
since the epoch into seconds and nanoseconds (Go truncated division). -/
def statxTimestampFromDentry (ns : Int) : Int × Int :=
  (Int.tdiv ns 1000000000, Int.tmod ns 1000000000)

/-- The linux.Statx snapshot produced by dentry.statTo. -/
structure LinuxStatx where
  mask : Nat
  blksize : Nat
  nlink : Nat
  uid : Nat
  gid : Nat
  mode : Nat
  ino : Nat
  size : Nat
  blocks : Nat
  atime : Int × Int
  btime : Int × Int
  ctime : Int × Int
  mtime : Int × Int
deriving DecidableEq

/-- dentry.statTo (gofer.go:710-727): the mask always carries the twelve
attribute bits, mode is truncated to uint16, and blocks is computed from
size as (size + 511) / 512 (regular files are treated as having no holes). -/
def statTo (d : Dentry) : LinuxStatx :=
  { mask := STATX_TYPE ||| STATX_MODE ||| STATX_NLINK ||| STATX_UID ||| STATX_GID |||
            STATX_ATIME ||| STATX_MTIME ||| STATX_CTIME ||| STATX_INO ||| STATX_SIZE |||
            STATX_BLOCKS ||| STATX_BTIME,
    blksize := d.blockSize,
    nlink := d.nlink,
    uid := d.uid,
    gid := d.gid,
    mode := d.mode % 65536,
    ino := d.ino,
    size := d.size,
    blocks := (d.size + 511) / 512,
    atime := statxTimestampFromDentry d.atime,
    btime := statxTimestampFromDentry d.btime,
    ctime := statxTimestampFromDentry d.ctime,
    mtime := statxTimestampFromDentry d.mtime }

/-! ## Permission checks and xattr operations (gofer.go:850-852, 1028-1072) -/

/-- Credentials of the calling task (auth.Credentials). -/
structure Creds where
  uid : Nat
  gid : Nat
deriving DecidableEq

/-- Modelled from the spec: vfs.GenericCheckPermissions is outside this
repository slice; per the spec it is a standard POSIX check of the
requested access bits against the owner, group or other permission bits of
the cached mode, selected by the cached uid and gid. -/
def genericCheckPermissions (creds : Creds) (ats : Nat) (mode uid gid : Nat) : Option Err :=
  if ats &&& (if creds.uid = uid then (mode >>> 6) &&& 7
              else if creds.gid = gid then (mode >>> 3) &&& 7
              else mode &&& 7) = ats
  then none else some Err.eacces

/-- dentry.checkPermissions (gofer.go:850-852). -/
def checkPermissions (d : Dentry) (creds : Creds) (ats : Nat) : Option Err :=
  genericCheckPermissions creds ats d.mode d.uid d.gid

/-- dentry.getxattr (gofer.go:1044-1052): permission check, then the
user-prefix gate, then the server round trip (oracle serverRes; the Bool
records whether the server was contacted). -/
def getxattr (d : Dentry) (creds : Creds) (name : String) (size : Nat)
    (serverRes : Except Err String) : Except Err String × Bool :=
  match checkPermissions d creds MayRead with
  | some e => (Except.error e, false)
  | none =>
    if !(List.isPrefixOf "user.".toList name.toList) then (Except.error Err.eopnotsupp, false)
    else (serverRes, true)

/-- dentry.setxattr (gofer.go:1054-1062). -/
def setxattr (d : Dentry) (creds : Creds) (name value : String) (flags : Nat)
    (serverRes : Option Err) : Option Err × Bool :=
  match checkPermissions d creds MayWrite with
  | some e => (some e, false)
  | none =>
    if !(List.isPrefixOf "user.".toList name.toList) then (some Err.eopnotsupp, false)
    else (serverRes, true)

/-- dentry.removexattr (gofer.go:1064-1072). -/
def removexattr (d : Dentry) (creds : Creds) (name : String)
    (serverRes : Option Err) : Option Err × Bool :=
  match checkPermissions d creds MayWrite with
  | some e => (some e, false)
  | none =>
    if !(List.isPrefixOf "user.".toList name.toList) then (some Err.eopnotsupp, false)
    else (serverRes, true)

/-! ## TryIncRef (gofer.go:861-872) -/

/-- dentry.TryIncRef: the CAS loop refuses to bump a reference count that is
less than or equal to zero; under sequential semantics the CAS succeeds on
the loaded value, so the loop body runs once. -/
def TryIncRef (d : Dentry) : Bool × Dentry :=
  if d.refs ≤ 0 then (false, d) else (true, { d with refs := d.refs + 1 })

/-! ## ensureSharedHandle (gofer.go:1074-1163) -/

/-- Host-level and server-level actions taken by ensureSharedHandle, in
order: the server open, closing a handle (clunk its fid and close its host
FD), the dup3 moving the new host FD onto the old FD number, closing the
originally allocated new FD, regenerating sentry mappings of the FD number,
clunking the old fid, and invalidating all application mappings. -/
inductive HEvent
  | openHandleCall (read write trunc : Bool)
  | closeHandle (h : Handle)
  | dup3Call (newfd oldfd : Int)
  | closeFD (fd : Int)
  | regenMappings (fd : Int)
  | clunkOldFid (fid : Nat)
  | invalidateAllMappings
deriving DecidableEq

/-- Result of ensureSharedHandle: the resulting dentry, the returned error,
and the actions taken. -/
structure ESHResult where
  d : Dentry
  res : Option Err
  events : List HEvent
deriving DecidableEq

/-- Switching to the new handle (gofer.go:1145-1148). -/
def installHandle (d : Dentry) (h : Handle) (wantReadable wantWritable : Bool) : Dentry :=
  { d with handle := h, handleReadable := wantReadable, handleWritable := wantWritable }

/-- The body of ensureSharedHandle once a new handle h has been opened
(gofer.go:1099-1162), with the old handle still installed in d.  ev0 holds
the open event; dup3Res and regenRes are oracles for syscall.Dup3 and
hostFileMapper.RegenerateMappings.  When the old handle exists, host-FD
availability must match on both sides (else close h and fail with EIO);
when both sides have host FDs the new FD is moved onto the old FD number
and the old fid is clunked; with overlayfsStaleRead the sentry mappings are
regenerated and, after the handle lock is released, all application
mappings are invalidated. -/
def ensureSharedHandleUpgrade (d : Dentry) (stale : Bool) (wr ww : Bool) (h : Handle)
    (dup3Res regenRes : Option Err) (ev0 : List HEvent) : ESHResult :=
  if d.handle.file.isSome then
    if Handle.hasHostFD d.handle != Handle.hasHostFD h then
      ⟨d, some Err.eio, ev0 ++ [HEvent.closeHandle h]⟩
    else if Handle.hasHostFD d.handle then
      match dup3Res with
      | some e => ⟨d, some e, ev0 ++ [HEvent.dup3Call h.fd d.handle.fd, HEvent.closeHandle h]⟩
      | none =>
        if stale then
          match regenRes with
          | some e =>
            ⟨d, some e,
             ev0 ++ [HEvent.dup3Call h.fd d.handle.fd, HEvent.closeFD h.fd,
                     HEvent.regenMappings d.handle.fd,
                     HEvent.closeHandle { h with fd := d.handle.fd }]⟩
          | none =>
            ⟨{ (installHandle d { h with fd := d.handle.fd } wr ww) with mappings := [] },
             none,
             ev0 ++ [HEvent.dup3Call h.fd d.handle.fd, HEvent.closeFD h.fd,
                     HEvent.regenMappings d.handle.fd,
                     HEvent.clunkOldFid (d.handle.file.getD 0),
                     HEvent.invalidateAllMappings]⟩
        else
          ⟨installHandle d { h with fd := d.handle.fd } wr ww, none,
           ev0 ++ [HEvent.dup3Call h.fd d.handle.fd, HEvent.closeFD h.fd,
                   HEvent.clunkOldFid (d.handle.file.getD 0)]⟩
    else
      ⟨installHandle d h wr ww, none, ev0⟩
  else
    ⟨installHandle d h wr ww, none, ev0⟩

/-- dentry.ensureSharedHandle (gofer.go:1074-1163).  openRes is the oracle
for openHandle; the fast path returns when no truncate is requested and the
current handle already satisfies the requested bits; otherwise, if the
handle is still insufficient under the write lock, a new handle is opened
with the union of the current and requested capabilities. -/
def ensureSharedHandle (d : Dentry) (stale : Bool) (read write trunc : Bool)
    (openRes : Except Err Handle) (dup3Res regenRes : Option Err) : ESHResult :=
  if !trunc && (!read || d.handleReadable) && (!write || d.handleWritable) then
    ⟨d, none, []⟩
  else if (read && !d.handleReadable) || (write && !d.handleWritable) || trunc then
    match openRes with
    | Except.error e =>
      ⟨d, some e,
       [HEvent.openHandleCall (d.handleReadable || read) (d.handleWritable || write) trunc]⟩
    | Except.ok h =>
      ensureSharedHandleUpgrade d stale (d.handleReadable || read) (d.handleWritable || write)
        h dup3Res regenRes
        [HEvent.openHandleCall (d.handleReadable || read) (d.handleWritable || write) trunc]
  else ⟨d, none, []⟩

/-! ## Reference counting, caching and destruction (gofer.go:874-1018)

checkCachingLocked and destroyLocked are mutually recursive through the
parent reference drop; they are embedded as one fuel-indexed function ccGo
whose Bool argument selects checkCachingLocked (true) or destroyLocked
(false).  The per-dentry state keeps the fields these functions read and
write; the dirty-page flush and fid close performed by destroyLocked act on
external resources and are not part of this state.  Go panics (destroy with
live references, destroy of a destroyed dentry) abort the process; they are
modelled as identity steps, reached only on defect states. -/

/-- Per-dentry state for the caching layer: reference count (-1 means
destroyed), the VFS parent link, the disowned flag, the cached flag, and
membership in the filesystem dentry set. -/
structure DState where
  refs : Int
  parent : Option Nat
  disowned : Bool
  cached : Bool
  inSet : Bool
deriving DecidableEq

/-- Filesystem caching state: dentry states indexed by id, the LRU list of
cached dentries (front is most recently used), and the separately tracked
length counter cachedDentriesLen. -/
structure CacheFS where
  ds : Nat → DState
  lru : List Nat
  lruLen : Nat

/-- Result of a caching-layer step: the new state, how many LRU tail
victims were evicted, and how many checkCachingLocked invocations ran. -/
structure CCResult where
  fs : CacheFS
  evictions : Nat
  calls : Nat

/-- Pointwise update of the dentry-state table. -/
def updDS (f : Nat → DState) (i : Nat) (v : DState) : Nat → DState :=
  fun j => if j = i then v else f j

/-- Removing a dentry from the LRU (gofer.go:902-905, 916-919, 936-939):
remove from the list, decrement the counter, clear the cached flag. -/
def lruRemoveD (fs : CacheFS) (i : Nat) : CacheFS :=
  { ds := updDS fs.ds i { fs.ds i with cached := false },
    lru := fs.lru.erase i,
    lruLen := fs.lruLen - 1 }

/-- Caching a dentry (gofer.go:932-934): push onto the front of the LRU,
increment the counter, set the cached flag. -/
def lruPush (fs : CacheFS) (i : Nat) : CacheFS :=
  { ds := updDS fs.ds i { fs.ds i with cached := true },
    lru := i :: fs.lru,
    lruLen := fs.lruLen + 1 }

/-- ForceDeleteDentry on the eviction victim (gofer.go:946-958): when the
victim still has a parent and is not already disowned, its VFS dentry is
force-deleted, which disowns it. -/
def forceDeleteVictim (fs : CacheFS) (v : Nat) : CacheFS :=
  match (fs.ds v).parent with
  | none => fs
  | some _ =>
    if (fs.ds v).disowned then fs
    else { fs with ds := updDS fs.ds v { fs.ds v with disowned := true } }

/-- Marking a dentry destroyed (gofer.go:971-979, 1004-1007): refs becomes
-1 and it leaves the filesystem dentry set. -/
def dsMarkDestroyed (fs : CacheFS) (i : Nat) : CacheFS :=
  { fs with ds := updDS fs.ds i { fs.ds i with refs := -1, inSet := false } }

/-- A raw atomic decrement of the reference count of dentry p. -/
def dsDecRefRaw (fs : CacheFS) (p : Nat) : CacheFS :=
  { fs with ds := updDS fs.ds p { fs.ds p with refs := (fs.ds p).refs - 1 } }

/-- Bump the invocation counter of a recursive result (the enclosing
checkCachingLocked frame). -/
def ccBump (r : CCResult) : CCResult := ⟨r.fs, r.evictions, r.calls + 1⟩

/-- Bump both the eviction count and the invocation counter. -/
def ccBumpEvict (r : CCResult) : CCResult := ⟨r.fs, r.evictions + 1, r.calls + 1⟩

/-- The eviction step of checkCachingLocked (gofer.go:935-962), run after
the dentry was pushed onto the LRU: if the counter exceeds the cap, take
the LRU tail victim, remove it, and, only if its refs are still 0,
force-delete its VFS dentry (when still parented) and destroy it.  recur is
the destroyLocked continuation at the remaining fuel. -/
def ccEvict (recur : CacheFS → Nat → CCResult) (maxCached : Nat) (fs : CacheFS) : CCResult :=
  if maxCached < fs.lruLen then
    match fs.lru.getLast? with
    | none => ⟨fs, 0, 1⟩
    | some victim =>
      if (fs.ds victim).refs = 0 then
        ccBumpEvict (recur (forceDeleteVictim (lruRemoveD fs victim) victim) victim)
      else ⟨lruRemoveD fs victim, 1, 1⟩
  else ⟨fs, 0, 1⟩

/-- The body of destroyLocked after the refs precondition (gofer.go:
981-1017): mark destroyed, leave the dentry set, then drop the reference
held on the parent, running the parent checkCachingLocked (the recur
continuation) when the parent refs reach 0. -/
def destroyStep (recur : CacheFS → Nat → CCResult) (fs : CacheFS) (i : Nat) : CCResult :=
  match (fs.ds i).parent with
  | none => ⟨dsMarkDestroyed fs i, 0, 0⟩
  | some p =>
    if ((dsDecRefRaw (dsMarkDestroyed fs i) p).ds p).refs = 0 then
      recur (dsDecRefRaw (dsMarkDestroyed fs i) p) p
    else ⟨dsDecRefRaw (dsMarkDestroyed fs i) p, 0, 0⟩

/-- The combined checkCachingLocked (mode true, gofer.go:895-963) and
destroyLocked (mode false, gofer.go:970-1018) step function, indexed by
fuel for the parent-destruction recursion. -/
def ccGo : Nat → Bool → Nat → CacheFS → Nat → CCResult
  | 0, _, _, fs, _ => ⟨fs, 0, 0⟩
  | fuel + 1, true, maxCached, fs, i =>
    if 0 < (fs.ds i).refs then
      if (fs.ds i).cached then ⟨lruRemoveD fs i, 0, 1⟩ else ⟨fs, 0, 1⟩
    else if (fs.ds i).refs = -1 then ⟨fs, 0, 1⟩
    else if (fs.ds i).parent = none ∨ (fs.ds i).disowned = true then
      ccBump (ccGo fuel false maxCached
        (if (fs.ds i).cached then lruRemoveD fs i else fs) i)
    else if (fs.ds i).cached then
      ⟨{ fs with lru := i :: fs.lru.erase i }, 0, 1⟩
    else
      ccEvict (fun fs2 j => ccGo fuel false maxCached fs2 j) maxCached (lruPush fs i)
  | fuel + 1, false, maxCached, fs, i =>
    if (fs.ds i).refs = 0 then
      destroyStep (fun fs2 j => ccGo fuel true maxCached fs2 j) fs i
    else ⟨fs, 0, 0⟩

/-- dentry.checkCachingLocked (gofer.go:895-963). -/
def checkCachingLocked (fuel maxCached : Nat) (fs : CacheFS) (i : Nat) : CCResult :=
  ccGo fuel true maxCached fs i

/-- dentry.destroyLocked (gofer.go:970-1018). -/
def destroyLocked (fuel maxCached : Nat) (fs : CacheFS) (i : Nat) : CCResult :=
  ccGo fuel false maxCached fs i

/-- dentry.DecRef (gofer.go:874-883): atomically decrement; on reaching 0,
take the rename write lock and run checkCachingLocked.  A decrement below 0
panics in Go (a defect); as elsewhere, the aborting path is modelled as a
plain stop. -/
def DecRef (fuel maxCached : Nat) (fs : CacheFS) (i : Nat) : CCResult :=
  if ((dsDecRefRaw fs i).ds i).refs = 0 then ccGo fuel true maxCached (dsDecRefRaw fs i) i
  else ⟨dsDecRefRaw fs i, 0, 0⟩

/-- The LRU representation invariant: the list has no duplicates, a dentry
is in it exactly when its cached flag is set, and the tracked counter
equals the list length. -/
def LruInv (fs : CacheFS) : Prop :=
  fs.lru.Nodup ∧ (∀ j, j ∈ fs.lru ↔ (fs.ds j).cached = true) ∧ fs.lruLen = fs.lru.length

/-! ## Concrete states used by witnesses and counterexamples -/

/-- A live regular-file dentry with an open read-write handle, 8192 bytes,
fully cached, fully dirty and fully mapped. -/
def dC2 : Dentry :=
  { refs := 1, ino := 10, mode := 0x81A4, uid := 0, gid := 0, blockSize := 4096,
    atime := 0, mtime := 0, ctime := 0, btime := 0, size := 8192, nlink := 1,
    deleted := false, cache := [(0, 8192)], dirty := [(0, 8192)], mappings := [(0, 8192)],
    handle := { file := some 1, fd := 3 }, handleReadable := true, handleWritable := true }

/-- A SetStat request shrinking the size to 3000 (mask = STATX_SIZE). -/
def statC2 : Statx :=
  { mask := 0x200, mode := 0, uid := 0, gid := 0, size := 3000,
    atimeSec := 0, atimeNsec := 0, mtimeSec := 0, mtimeNsec := 0 }

/-- A dentry with an open readable handle that carries a host FD. -/
def dC1 : Dentry :=
  { dC2 with handle := { file := some 7, fd := 5 }, handleReadable := true,
             handleWritable := false }

/-- A freshly opened handle without a host FD. -/
def hC1 : Handle := { file := some 8, fd := -1 }

/-- A cacheable dentry: reference count exactly 0. -/
def dC4 : Dentry := { dC2 with refs := 0 }

/-- A dentry in Shared mode whose cached metadata is observed across a
SetStat. -/
def dC5 : Dentry :=
  { dC2 with
    mode := 0x81FF, uid := 5, gid := 6, atime := 11, mtime := 12, ctime := 13, size := 4096 }

/-- A SetStat request changing the permission bits (mask = STATX_MODE). -/
def statC5 : Statx :=
  { mask := 0x002, mode := 0x1C0, uid := 0, gid := 0, size := 0,
    atimeSec := 0, atimeNsec := 0, mtimeSec := 0, mtimeNsec := 0 }

/-- A SetStat request with STATX_CTIME, which is outside the settable set. -/
def statC6 : Statx :=
  { mask := 0x080, mode := 0, uid := 0, gid := 0, size := 0,
    atimeSec := 0, atimeNsec := 0, mtimeSec := 0, mtimeNsec := 0 }

/-- A SetStat request shrinking the size with an explicit mtime of 9s + 5ns
(mask = STATX_SIZE | STATX_MTIME). -/
def statC7 : Statx :=
  { mask := 0x240, mode := 0, uid := 0, gid := 0, size := 100,
    atimeSec := 0, atimeNsec := 0, mtimeSec := 9, mtimeNsec := 5 }

/-- An unprivileged credential. -/
def credsC8 : Creds := { uid := 1000, gid := 1000 }

/-- A regular file owned by uid 1000 with no permission bits at all. -/
def dC8 : Dentry := { dC2 with mode := 0x8000, uid := 1000, gid := 1000 }

/-- A regular file owned by uid 1000 with rw permissions for the owner. -/
def dC8w : Dentry := { dC2 with mode := 0x8180, uid := 1000, gid := 1000 }

/-- An empty-mask SetStat request. -/
def statC10 : Statx :=
  { mask := 0, mode := 0x1FF, uid := 9, gid := 9, size := 77,
    atimeSec := 1, atimeNsec := 2, mtimeSec := 3, mtimeNsec := 4 }

/-- A three-dentry chain for the LRU model: dentry 0 is the root (refs 2,
pinned), dentry 1 is a directory under the root whose only reference is the
one held by its child, and dentry 2 is a file under dentry 1 with one live
reference. -/
def dsC3 : Nat → DState := fun n =>
  if n = 0 then { refs := 2, parent := none, disowned := false, cached := false, inSet := true }
  else if n = 1 then { refs := 1, parent := some 0, disowned := false, cached := false, inSet := true }
  else if n = 2 then { refs := 1, parent := some 1, disowned := false, cached := false, inSet := true }
  else { refs := 0, parent := none, disowned := false, cached := false, inSet := false }

/-- The caching state holding the chain, with an empty LRU. -/
def fsC3 : CacheFS := { ds := dsC3, lru := [], lruLen := 0 }

/-! ## Bitmask helper lemmas -/

theorem land_ne_zero_ne_zero {m k : Nat} (h : m &&& k ≠ 0) : m ≠ 0 := by
  intro hm
  exact h (by rw [hm]; exact Nat.zero_and k)

theorem land_land_absorb (m a b : Nat) (hab : a &&& b = b) : m &&& a &&& b = m &&& b := by
  apply Nat.eq_of_testBit_eq
  intro i
  have h := congrArg (fun x => Nat.testBit x i) hab
  simp only [Nat.testBit_land] at h ⊢
  cases ha : Nat.testBit a i <;> cases hb : Nat.testBit b i <;> simp_all

theorem land_land_kill (m a b : Nat) (hab : a &&& b = 0) : m &&& a &&& b = 0 := by
  apply Nat.eq_of_testBit_eq
  intro i
  have h := congrArg (fun x => Nat.testBit x i) hab
  simp only [Nat.testBit_land, Nat.zero_testBit] at h ⊢
  cases ha : Nat.testBit a i <;> cases hb : Nat.testBit b i <;> simp_all

/-! ## Range-set lemmas -/

theorem inRanges_eq_false_of_forall (rs : List (Nat × Nat)) (x : Nat)
    (h : ∀ r ∈ rs, ¬(r.1 ≤ x ∧ x < r.2)) : inRanges rs x = false := by
  unfold inRanges
  rw [List.any_eq_false]
  intro r hr
  simp only [Bool.and_eq_true, decide_eq_true_eq, not_and]
  intro h1 h2
  exact h r hr ⟨h1, h2⟩

theorem clampRangesBelow_mem_bound (rs : List (Nat × Nat)) (e : Nat) :
    ∀ r ∈ clampRangesBelow rs e, r.2 ≤ e := by
  intro r hr
  unfold clampRangesBelow at hr
  simp only [List.mem_filter, List.mem_map, decide_eq_true_eq] at hr
  obtain ⟨⟨q, _, rfl⟩, _⟩ := hr
  exact min_le_right _ _

theorem inRanges_clampRangesBelow (rs : List (Nat × Nat)) (e x : Nat) (h : e ≤ x) :
    inRanges (clampRangesBelow rs e) x = false := by
  apply inRanges_eq_false_of_forall
  intro r hr hc
  have := clampRangesBelow_mem_bound rs e r hr
  omega

theorem rangeSubtract_cons (q : Nat × Nat) (rs : List (Nat × Nat)) (s e : Nat) :
    rangeSubtract (q :: rs) s e =
      (if q.1 < min q.2 s then [(q.1, min q.2 s)] else []) ++
      ((if max q.1 e < q.2 then [(max q.1 e, q.2)] else []) ++ rangeSubtract rs s e) := by
  simp [rangeSubtract]

theorem rangeSubtract_mem_bound (rs : List (Nat × Nat)) (s e : Nat) :
    ∀ r ∈ rangeSubtract rs s e, r.2 ≤ s ∨ e ≤ r.1 := by
  induction rs with
  | nil =>
    intro r hr
    simp [rangeSubtract] at hr
  | cons q rs ih =>
    intro r hr
    rw [rangeSubtract_cons] at hr
    rcases List.mem_append.mp hr with h1 | h23
    · left
      split at h1
      · simp only [List.mem_singleton] at h1
        subst h1
        exact min_le_right _ _
      · simp at h1
    · rcases List.mem_append.mp h23 with h2 | h3
      · right
        split at h2
        · simp only [List.mem_singleton] at h2
          subst h2
          exact le_max_right _ _
        · simp at h2
      · exact ih r h3

theorem inRanges_rangeSubtract (rs : List (Nat × Nat)) (s e x : Nat)
    (h1 : s ≤ x) (h2 : x < e) : inRanges (rangeSubtract rs s e) x = false := by
  apply inRanges_eq_false_of_forall
  intro r hr hc
  rcases rangeSubtract_mem_bound rs s e r hr with h | h <;> omega

/-! ## Frame lemmas for the setStat local updates -/

theorem setStatMetaUpdates_frame (d : Dentry) (stat : Statx) (sla slm : Bool) (now : Int) :
    (setStatMetaUpdates d stat sla slm now).size = d.size ∧
    (setStatMetaUpdates d stat sla slm now).cache = d.cache ∧
    (setStatMetaUpdates d stat sla slm now).dirty = d.dirty ∧
    (setStatMetaUpdates d stat sla slm now).mappings = d.mappings := by
  unfold setStatMetaUpdates applyCtimeUpdate applyMtimeUpdate applyAtimeUpdate applyGidUpdate
    applyUidUpdate applyModeUpdate
  split_ifs <;> simp

theorem setStatMetaUpdates_mtime (d : Dentry) (stat : Statx) (sla : Bool) (now : Int) :
    (setStatMetaUpdates d stat sla true now).mtime =
      (if stat.mtimeNsec = UTIME_NOW then now else statxToNanos stat.mtimeSec stat.mtimeNsec) := by
  unfold setStatMetaUpdates applyCtimeUpdate applyMtimeUpdate applyAtimeUpdate applyGidUpdate
    applyUidUpdate applyModeUpdate
  split_ifs <;> simp_all

theorem setStatTruncate_mtime (d : Dentry) (stat : Statx) :
    (setStatTruncate d stat).mtime = d.mtime := by
  unfold setStatTruncate
  split_ifs <;> rfl

theorem setStatTruncate_spec (d : Dentry) (stat : Statx)
    (hsz : stat.mask &&& STATX_SIZE ≠ 0) (hlt : stat.size < d.size) :
    (setStatTruncate d stat).size = stat.size ∧
    (∀ x, pageRoundUp stat.size ≤ x → inRanges (setStatTruncate d stat).cache x = false) ∧
    (∀ x, stat.size ≤ x → x < pageRoundUp d.size →
      inRanges (setStatTruncate d stat).dirty x = false) ∧
    (∀ x, pageRoundUp stat.size ≤ x → x < pageRoundUp d.size →
      inRanges (setStatTruncate d stat).mappings x = false) := by
  unfold setStatTruncate
  rw [if_pos hsz, if_pos hlt]
  refine ⟨rfl, ?_, ?_, ?_⟩
  · intro x hx
    exact inRanges_clampRangesBelow _ _ _ hx
  · intro x h1 h2
    exact inRanges_rangeSubtract _ _ _ _ h1 h2
  · intro x h1 h2
    show inRanges (if pageRoundUp d.size ≠ pageRoundUp stat.size then
        rangeSubtract d.mappings (pageRoundUp stat.size) (pageRoundUp d.size)
      else d.mappings) x = false
    split_ifs with hpg
    · exact inRanges_rangeSubtract _ _ _ _ h1 h2
    · omega

/-! ## Shape lemmas for setStat -/

theorem setStatTimesSetup_mask (stat : Statx) (interop : InteropMode)
    (hi : interop ≠ InteropMode.shared) :
    (setStatTimesSetup stat interop).2.2.mask = stat.mask &&& maskClearTimes := by
  unfold setStatTimesSetup
  rw [if_neg hi]
  split <;> rfl

theorem setStatTimesSetup_size (stat : Statx) (interop : InteropMode)
    (hi : interop ≠ InteropMode.shared) :
    (setStatTimesSetup stat interop).2.2.size = stat.size := by
  unfold setStatTimesSetup
  rw [if_neg hi]
  split <;> rfl

theorem setStatTimesSetup_mtimeSec (stat : Statx) (interop : InteropMode)
    (hi : interop ≠ InteropMode.shared) :
    (setStatTimesSetup stat interop).2.2.mtimeSec = stat.mtimeSec := by
  unfold setStatTimesSetup
  rw [if_neg hi]
  split <;> rfl

theorem setStatTimesSetup_noMtime (stat : Statx) (interop : InteropMode)
    (hi : interop ≠ InteropMode.shared)
    (hmt : stat.mask &&& STATX_MTIME = 0) (hsz : stat.mask &&& STATX_SIZE ≠ 0) :
    (setStatTimesSetup stat interop).2.1 = true ∧
    (setStatTimesSetup stat interop).2.2.mtimeNsec = UTIME_NOW := by
  unfold setStatTimesSetup
  rw [if_neg hi]
  have hcond : ((stat.mask &&& STATX_MTIME == 0) &&
      (stat.mask &&& maskClearTimes &&& STATX_SIZE != 0)) = true := by
    rw [land_land_absorb stat.mask maskClearTimes STATX_SIZE (by decide)]
    simp [hmt, bne_iff_ne, hsz]
  rw [if_pos hcond]
  exact ⟨rfl, rfl⟩

theorem setStatTimesSetup_withMtime (stat : Statx) (interop : InteropMode)
    (hi : interop ≠ InteropMode.shared) (hmt : stat.mask &&& STATX_MTIME ≠ 0) :
    (setStatTimesSetup stat interop).2.1 = true ∧
    (setStatTimesSetup stat interop).2.2.mtimeNsec = stat.mtimeNsec := by
  unfold setStatTimesSetup
  rw [if_neg hi]
  have hcond : ((stat.mask &&& STATX_MTIME == 0) &&
      (stat.mask &&& maskClearTimes &&& STATX_SIZE != 0)) = false := by
    simp [hmt]
  rw [hcond]
  refine ⟨?_, rfl⟩
  simp [bne_iff_ne, hmt]

theorem setStat_success_shape (d : Dentry) (stat : Statx) (interop : InteropMode) (now : Int)
    (cR bR sR : Option Err) (hm : stat.mask ≠ 0)
    (hok : (setStat d stat interop now cR bR sR).res = none) :
    (setStat d stat interop now cR bR sR).d =
      setStatAfterServer d (setStatTimesSetup stat interop).2.2 interop
        (setStatTimesSetup stat interop).1 (setStatTimesSetup stat interop).2.1 now := by
  unfold setStat at hok ⊢
  rw [if_neg hm] at hok ⊢
  by_cases hns : stat.mask &&& statxNotSettableMask ≠ 0
  · rw [if_pos hns] at hok
    simp at hok
  · rw [if_neg hns] at hok ⊢
    cases cR with
    | some e => simp at hok
    | none =>
      cases bR with
      | some e => simp at hok
      | none =>
        unfold setStatServerPhase at hok ⊢
        by_cases hms : (setStatTimesSetup stat interop).2.2.mask ≠ 0
        · rw [if_pos hms] at hok ⊢
          cases sR with
          | some e => simp at hok
          | none => rfl
        · rw [if_neg hms] at hok ⊢

theorem setStatLocalUpdates_truncate_spec (d : Dentry) (stat : Statx) (sla slm : Bool)
    (now : Int) (hsz : stat.mask &&& STATX_SIZE ≠ 0) (hlt : stat.size < d.size) :
    (setStatLocalUpdates d stat sla slm now).size = stat.size ∧
    (∀ x, pageRoundUp stat.size ≤ x →
      inRanges (setStatLocalUpdates d stat sla slm now).cache x = false) ∧
    (∀ x, stat.size ≤ x → x < pageRoundUp d.size →
      inRanges (setStatLocalUpdates d stat sla slm now).dirty x = false) ∧
    (∀ x, pageRoundUp stat.size ≤ x → x < pageRoundUp d.size →
      inRanges (setStatLocalUpdates d stat sla slm now).mappings x = false) := by
  unfold setStatLocalUpdates
  obtain ⟨hS, hC, hD, hM⟩ := setStatMetaUpdates_frame d stat sla slm now
  have hlt1 : stat.size < (setStatMetaUpdates d stat sla slm now).size := by
    rw [hS]
    exact hlt
  obtain ⟨t1, t2, t3, t4⟩ :=
    setStatTruncate_spec (setStatMetaUpdates d stat sla slm now) stat hsz hlt1
  rw [hS] at t3 t4
  exact ⟨t1, t2, t3, t4⟩

/-! ## Claim theorems -/

/-- Counterexample to C2 as stated: the successful SetStat shrinking an
8192-byte fully cached file to 3000 bytes keeps the partial page-cache
range [0, 4096), which intersects the interval from the new size on: offset
4000 is at or beyond the new size 3000 and still cached. -/
theorem setStat_truncate_counterexample :
    (setStat dC2 statC2 InteropMode.exclusive 7 none none none).res = none ∧
    statC2.mask &&& STATX_SIZE ≠ 0 ∧ statC2.size < dC2.size ∧
    (setStat dC2 statC2 InteropMode.exclusive 7 none none none).d.size = 3000 ∧
    statC2.size ≤ 4000 ∧
    inRanges (setStat dC2 statC2 InteropMode.exclusive 7 none none none).d.cache 4000 = true := by
  decide

/-- Claim C2 (amended): outside Shared interop mode, after a successful
SetStat whose mask includes size and whose new size is strictly smaller
than the old size, the dentry size equals the new size, no page-cache range
intersects [pageRoundUp newSize, ∞), the dirty set is clean over
[newSize, oldPageEnd), and no application mapping remains over
[pageRoundUp newSize, oldPageEnd). -/
theorem setStat_truncate_amended (d : Dentry) (stat : Statx) (interop : InteropMode)
    (now : Int) (cR bR sR : Option Err)
    (hi : interop ≠ InteropMode.shared)
    (hsz : stat.mask &&& STATX_SIZE ≠ 0)
    (hlt : stat.size < d.size)
    (hok : (setStat d stat interop now cR bR sR).res = none) :
    (setStat d stat interop now cR bR sR).d.size = stat.size ∧
    (∀ x, pageRoundUp stat.size ≤ x →
      inRanges (setStat d stat interop now cR bR sR).d.cache x = false) ∧
    (∀ x, stat.size ≤ x → x < pageRoundUp d.size →
      inRanges (setStat d stat interop now cR bR sR).d.dirty x = false) ∧
    (∀ x, pageRoundUp stat.size ≤ x → x < pageRoundUp d.size →
      inRanges (setStat d stat interop now cR bR sR).d.mappings x = false) := by
  have hm : stat.mask ≠ 0 := land_ne_zero_ne_zero hsz
  have hmask1 := setStatTimesSetup_mask stat interop hi
  have hsize1 := setStatTimesSetup_size stat interop hi
  have hsz1 : (setStatTimesSetup stat interop).2.2.mask &&& STATX_SIZE ≠ 0 := by
    rw [hmask1, land_land_absorb stat.mask maskClearTimes STATX_SIZE (by decide)]
    exact hsz
  have hlt1 : (setStatTimesSetup stat interop).2.2.size < d.size := by
    rw [hsize1]
    exact hlt
  have hmain := setStatLocalUpdates_truncate_spec d (setStatTimesSetup stat interop).2.2
    (setStatTimesSetup stat interop).1 (setStatTimesSetup stat interop).2.1 now hsz1 hlt1
  rw [hsize1] at hmain
  rw [setStat_success_shape d stat interop now cR bR sR hm hok]
  unfold setStatAfterServer
  rw [if_neg hi]
  exact hmain

/-- Witness for the amended C2: after the shrink from 8192 to 3000, offset
4096 (the page-rounded new size) is no longer cached. -/
theorem setStat_truncate_amended_witness :
    (InteropMode.exclusive ≠ InteropMode.shared ∧ statC2.mask &&& STATX_SIZE ≠ 0 ∧
      statC2.size < dC2.size ∧
      (setStat dC2 statC2 InteropMode.exclusive 7 none none none).res = none) ∧
    inRanges (setStat dC2 statC2 InteropMode.exclusive 7 none none none).d.cache 4096 = false :=
  ⟨⟨by decide, by decide, by decide, by decide⟩,
   (setStat_truncate_amended dC2 statC2 InteropMode.exclusive 7 none none none
      (by decide) (by decide) (by decide) (by decide)).2.1 4096 (by decide)⟩

/-- Claim C7: outside Shared interop mode, a successful SetStat whose mask
includes size but not mtime sets the cached mtime to the current clock
reading; if the caller supplied an explicit (non-UTIME_NOW) mtime, that
value is stored instead. -/
theorem setStat_size_stamps_mtime (d : Dentry) (stat : Statx) (interop : InteropMode)
    (now : Int) (cR bR sR : Option Err)
    (hi : interop ≠ InteropMode.shared)
    (hsz : stat.mask &&& STATX_SIZE ≠ 0)
    (hok : (setStat d stat interop now cR bR sR).res = none) :
    (stat.mask &&& STATX_MTIME = 0 → (setStat d stat interop now cR bR sR).d.mtime = now) ∧
    (stat.mask &&& STATX_MTIME ≠ 0 → stat.mtimeNsec ≠ UTIME_NOW →
      (setStat d stat interop now cR bR sR).d.mtime =
        statxToNanos stat.mtimeSec stat.mtimeNsec) := by
  have hm : stat.mask ≠ 0 := land_ne_zero_ne_zero hsz
  rw [setStat_success_shape d stat interop now cR bR sR hm hok]
  unfold setStatAfterServer
  rw [if_neg hi]
  unfold setStatLocalUpdates
  rw [setStatTruncate_mtime]
  constructor
  · intro hmt
    obtain ⟨hslm, hnsec⟩ := setStatTimesSetup_noMtime stat interop hi hmt hsz
    rw [hslm, setStatMetaUpdates_mtime, hnsec, if_pos rfl]
  · intro hmt hnow
    obtain ⟨hslm, hnsec⟩ := setStatTimesSetup_withMtime stat interop hi hmt
    rw [hslm, setStatMetaUpdates_mtime, hnsec,
        setStatTimesSetup_mtimeSec stat interop hi, if_neg hnow]

/-- Witness for C7: a size shrink carrying an explicit mtime of 9 s + 5 ns
stores 9000000005 ns rather than the clock reading. -/
theorem setStat_size_stamps_mtime_witness :
    (InteropMode.exclusive ≠ InteropMode.shared ∧ statC7.mask &&& STATX_SIZE ≠ 0 ∧
      (setStat dC2 statC7 InteropMode.exclusive 7 none none none).res = none ∧
      statC7.mask &&& STATX_MTIME ≠ 0 ∧ statC7.mtimeNsec ≠ UTIME_NOW) ∧
    (setStat dC2 statC7 InteropMode.exclusive 7 none none none).d.mtime =
      statxToNanos statC7.mtimeSec statC7.mtimeNsec :=
  ⟨⟨by decide, by decide, by decide, by decide, by decide⟩,
   (setStat_size_stamps_mtime dC2 statC7 InteropMode.exclusive 7 none none none
      (by decide) (by decide) (by decide)).2 (by decide) (by decide)⟩

/-- Claim C1: in ensureSharedHandle, whenever a new handle is opened while
an old open handle exists and exactly one of the two exposes a host file
descriptor, the operation closes the newly opened handle and fails with
EIO, leaving the dentry (in particular the installed handle and its
readable and writable flags) unchanged. -/
theorem ensureSharedHandle_incompatible_eio (d : Dentry) (stale read write trunc : Bool)
    (h : Handle) (dup3Res regenRes : Option Err)
    (hneed : ((read && !d.handleReadable) || (write && !d.handleWritable) || trunc) = true)
    (hold : d.handle.file.isSome = true)
    (hfd : Handle.hasHostFD d.handle ≠ Handle.hasHostFD h) :
    ensureSharedHandle d stale read write trunc (Except.ok h) dup3Res regenRes =
      ⟨d, some Err.eio,
       [HEvent.openHandleCall (d.handleReadable || read) (d.handleWritable || write) trunc,
        HEvent.closeHandle h]⟩ := by
  have hfast : (!trunc && (!read || d.handleReadable) && (!write || d.handleWritable)) = false := by
    revert hneed
    cases read <;> cases write <;> cases trunc <;>
      cases hr : d.handleReadable <;> cases hw : d.handleWritable <;> simp_all
  unfold ensureSharedHandle
  rw [if_neg (by simp [hfast]), if_pos hneed]
  show ensureSharedHandleUpgrade d stale (d.handleReadable || read) (d.handleWritable || write)
      h dup3Res regenRes
      [HEvent.openHandleCall (d.handleReadable || read) (d.handleWritable || write) trunc] = _
  unfold ensureSharedHandleUpgrade
  rw [if_pos hold, if_pos (by simp [bne_iff_ne, hfd])]
  rfl

/-- Witness for C1: a readable-only handle with host FD 5, a write upgrade
whose freshly opened handle has no host FD. -/
theorem ensureSharedHandle_incompatible_eio_witness :
    (((false && !dC1.handleReadable) || (true && !dC1.handleWritable) || false) = true ∧
      dC1.handle.file.isSome = true ∧ Handle.hasHostFD dC1.handle ≠ Handle.hasHostFD hC1) ∧
    ensureSharedHandle dC1 false false true false (Except.ok hC1) none none =
      ⟨dC1, some Err.eio,
       [HEvent.openHandleCall (dC1.handleReadable || false) (dC1.handleWritable || true) false,
        HEvent.closeHandle hC1]⟩ :=
  ⟨⟨by decide, by decide, by decide⟩,
   ensureSharedHandle_incompatible_eio dC1 false false true false hC1 none none
     (by decide) (by decide) (by decide)⟩

/-- Counterexample to C4 as stated: on a dentry in the cacheable state
(refs exactly 0), TryIncRef does not transition it to live; it returns
false and leaves the reference count at 0. -/
theorem TryIncRef_cacheable_counterexample :
    dC4.refs = 0 ∧ TryIncRef dC4 = (false, dC4) ∧ (TryIncRef dC4).2.refs = 0 := by
  decide

/-- Claim C4 (amended): for every dentry in the cacheable state (reference
count exactly 0), TryIncRef refuses the transition: it returns false and
leaves the reference count at 0 (the CAS loop refuses any count less than
or equal to zero, so only live dentries can be re-referenced this way). -/
theorem TryIncRef_cacheable_refuses (d : Dentry) (h : d.refs = 0) :
    TryIncRef d = (false, d) := by
  unfold TryIncRef
  rw [if_pos (by omega)]

/-- Witness for the amended C4. -/
theorem TryIncRef_cacheable_refuses_witness :
    dC4.refs = 0 ∧ TryIncRef dC4 = (false, dC4) :=
  ⟨rfl, TryIncRef_cacheable_refuses dC4 rfl⟩

/-- Claim C5: in Shared interop mode, a successful setStat leaves the
dentry completely unchanged after the server setattr call; in particular
every locally cached metadata field (mode, uid, gid, atime, mtime, ctime,
size) keeps its value. -/
theorem setStat_shared_no_local_update (d : Dentry) (stat : Statx) (now : Int)
    (cR bR sR : Option Err)
    (hok : (setStat d stat InteropMode.shared now cR bR sR).res = none) :
    (setStat d stat InteropMode.shared now cR bR sR).d = d := by
  by_cases hm : stat.mask = 0
  · unfold setStat
    rw [if_pos hm]
  · rw [setStat_success_shape d stat InteropMode.shared now cR bR sR hm hok]
    unfold setStatAfterServer
    rw [if_pos rfl]

/-- Witness for C5: a permission-bit change in Shared mode with a
successful server call leaves the cached metadata untouched. -/
theorem setStat_shared_no_local_update_witness :
    (setStat dC5 statC5 InteropMode.shared 99 none none none).res = none ∧
    (setStat dC5 statC5 InteropMode.shared 99 none none none).d = dC5 :=
  ⟨by decide, setStat_shared_no_local_update dC5 statC5 99 none none none (by decide)⟩

/-- Claim C6: a SetStat request whose nonzero mask contains a bit outside
the settable set (mode, uid, gid, atime, mtime, size) fails with EPERM
before any external call (no permission check, no write-begin, no server
round trip) and with the dentry unchanged. -/
theorem setStat_invalid_mask_eperm (d : Dentry) (stat : Statx) (interop : InteropMode)
    (now : Int) (cR bR sR : Option Err) (hm : stat.mask ≠ 0)
    (hbad : stat.mask &&& statxNotSettableMask ≠ 0) :
    setStat d stat interop now cR bR sR = ⟨d, some Err.eperm, []⟩ := by
  unfold setStat
  rw [if_neg hm, if_pos hbad]

/-- Witness for C6: a request carrying STATX_CTIME. -/
theorem setStat_invalid_mask_eperm_witness :
    (statC6.mask ≠ 0 ∧ statC6.mask &&& statxNotSettableMask ≠ 0) ∧
    setStat dC5 statC6 InteropMode.exclusive 99 none none none = ⟨dC5, some Err.eperm, []⟩ :=
  ⟨⟨by decide, by decide⟩,
   setStat_invalid_mask_eperm dC5 statC6 InteropMode.exclusive 99 none none none
     (by decide) (by decide)⟩

/-- Counterexample to C8 as stated: the permission check runs before the
name-prefix gate, so on a dentry the caller cannot read, getxattr of
security.selinux fails with EACCES, not EOPNOTSUPP. -/
theorem getxattr_eacces_counterexample :
    getxattr dC8 credsC8 "security.selinux" 0 (Except.ok "") =
      (Except.error Err.eacces, false) ∧
    Err.eacces ≠ Err.eopnotsupp := by
  exact ⟨rfl, by decide⟩

/-- Claim C8 (amended): for every dentry whose permission check passes
(read permission for getxattr, write permission for setxattr and
removexattr) and every xattr name not prefixed with user., the three
operations fail with EOPNOTSUPP without contacting the server. -/
theorem xattr_non_user_eopnotsupp (d : Dentry) (creds : Creds) (name : String) (size : Nat)
    (gRes : Except Err String) (value : String) (flags : Nat) (sRes rRes : Option Err)
    (hr : checkPermissions d creds MayRead = none)
    (hw : checkPermissions d creds MayWrite = none)
    (hname : List.isPrefixOf "user.".toList name.toList = false) :
    getxattr d creds name size gRes = (Except.error Err.eopnotsupp, false) ∧
    setxattr d creds name value flags sRes = (some Err.eopnotsupp, false) ∧
    removexattr d creds name rRes = (some Err.eopnotsupp, false) := by
  unfold getxattr setxattr removexattr
  rw [hr, hw, hname]
  exact ⟨rfl, rfl, rfl⟩

/-- Witness for the amended C8: an owner with read-write permission asking
for security.selinux. -/
theorem xattr_non_user_eopnotsupp_witness :
    (checkPermissions dC8w credsC8 MayRead = none ∧
      checkPermissions dC8w credsC8 MayWrite = none ∧
      List.isPrefixOf "user.".toList "security.selinux".toList = false) ∧
    getxattr dC8w credsC8 "security.selinux" 0 (Except.ok "") =
      (Except.error Err.eopnotsupp, false) :=
  ⟨⟨by decide, by decide, by decide⟩,
   (xattr_non_user_eopnotsupp dC8w credsC8 "security.selinux" 0 (Except.ok "") "" 0 none none
     (by decide) (by decide) (by decide)).1⟩

/-- Claim C9: every stat snapshot produced by statTo has a mask including
type, mode, nlink, uid, gid, atime, mtime, ctime, ino, size, blocks and
btime, and its blocks field equals (size + 511) / 512 computed from the
size field of the snapshot itself. -/
theorem statTo_mask_and_blocks (d : Dentry) :
    (statTo d).mask &&&
        (STATX_TYPE ||| STATX_MODE ||| STATX_NLINK ||| STATX_UID ||| STATX_GID |||
         STATX_ATIME ||| STATX_MTIME ||| STATX_CTIME ||| STATX_INO ||| STATX_SIZE |||
         STATX_BLOCKS ||| STATX_BTIME) =
      (STATX_TYPE ||| STATX_MODE ||| STATX_NLINK ||| STATX_UID ||| STATX_GID |||
       STATX_ATIME ||| STATX_MTIME ||| STATX_CTIME ||| STATX_INO ||| STATX_SIZE |||
       STATX_BLOCKS ||| STATX_BTIME) ∧
    (statTo d).blocks = ((statTo d).size + 511) / 512 :=
  ⟨Nat.and_self _, rfl⟩

/-- Claim C10: a SetStat request with an empty mask returns success
immediately: no external call of any kind is made (in particular neither
the CheckSetStat permission check nor the server) and the dentry is
unchanged. -/
theorem setStat_empty_mask (d : Dentry) (stat : Statx) (interop : InteropMode) (now : Int)
    (cR bR sR : Option Err) (hm : stat.mask = 0) :
    setStat d stat interop now cR bR sR = ⟨d, none, []⟩ := by
  unfold setStat
  rw [if_pos hm]

/-- Witness for C10: an empty-mask request carrying nonzero payload fields,
with all oracles set to fail, still succeeds untouched. -/
theorem setStat_empty_mask_witness :
    statC10.mask = 0 ∧
    setStat dC5 statC10 InteropMode.exclusive 99 (some Err.eacces) (some Err.eio)
        (some Err.eio) = ⟨dC5, none, []⟩ :=
  ⟨rfl, setStat_empty_mask dC5 statC10 InteropMode.exclusive 99 (some Err.eacces)
    (some Err.eio) (some Err.eio) rfl⟩

/-! ## LRU invariant lemmas (caching layer) -/

theorem lruInv_updDS (fs : CacheFS) (i : Nat) (v : DState)
    (hv : v.cached = (fs.ds i).cached) (hinv : LruInv fs) :
    LruInv { fs with ds := updDS fs.ds i v } := by
  obtain ⟨hnd, hmem, hlen⟩ := hinv
  refine ⟨hnd, ?_, hlen⟩
  intro j
  show j ∈ fs.lru ↔ (updDS fs.ds i v j).cached = true
  unfold updDS
  by_cases hj : j = i
  · subst hj
    rw [if_pos rfl, hv]
    exact hmem j
  · rw [if_neg hj]
    exact hmem j

theorem lruRemoveD_inv (fs : CacheFS) (i : Nat) (hinv : LruInv fs)
    (hc : (fs.ds i).cached = true) : LruInv (lruRemoveD fs i) := by
  obtain ⟨hnd, hmem, hlen⟩ := hinv
  have him : i ∈ fs.lru := (hmem i).mpr hc
  refine ⟨hnd.erase i, ?_, ?_⟩
  · intro j
    show j ∈ fs.lru.erase i ↔ (updDS fs.ds i { fs.ds i with cached := false } j).cached = true
    rw [hnd.mem_erase_iff]
    unfold updDS
    by_cases hj : j = i
    · subst hj
      rw [if_pos rfl]
      simp
    · rw [if_neg hj]
      simp only [hj, ne_eq, not_false_eq_true, true_and]
      exact hmem j
  · show fs.lruLen - 1 = (fs.lru.erase i).length
    rw [List.length_erase_of_mem him, hlen]

theorem lruPush_inv (fs : CacheFS) (i : Nat) (hinv : LruInv fs)
    (hc : (fs.ds i).cached = false) : LruInv (lruPush fs i) := by
  obtain ⟨hnd, hmem, hlen⟩ := hinv
  have hni : i ∉ fs.lru := by
    intro h
    have h2 := (hmem i).mp h
    rw [hc] at h2
    exact Bool.false_ne_true h2
  refine ⟨List.nodup_cons.mpr ⟨hni, hnd⟩, ?_, ?_⟩
  · intro j
    show j ∈ i :: fs.lru ↔ (updDS fs.ds i { fs.ds i with cached := true } j).cached = true
    rw [List.mem_cons]
    unfold updDS
    by_cases hj : j = i
    · subst hj
      rw [if_pos rfl]
      simp
    · rw [if_neg hj]
      simp only [hj, false_or]
      exact hmem j
  · show fs.lruLen + 1 = (i :: fs.lru).length
    rw [List.length_cons, hlen]

theorem lruMoveFront_inv (fs : CacheFS) (i : Nat) (hinv : LruInv fs)
    (hc : (fs.ds i).cached = true) : LruInv { fs with lru := i :: fs.lru.erase i } := by
  obtain ⟨hnd, hmem, hlen⟩ := hinv
  have him : i ∈ fs.lru := (hmem i).mpr hc
  refine ⟨List.nodup_cons.mpr ⟨fun h => (hnd.mem_erase_iff.mp h).1 rfl, hnd.erase i⟩, ?_, ?_⟩
  · intro j
    show j ∈ i :: fs.lru.erase i ↔ (fs.ds j).cached = true
    rw [List.mem_cons, hnd.mem_erase_iff]
    constructor
    · rintro (rfl | ⟨-, hj⟩)
      · exact hc
      · exact (hmem j).mp hj
    · intro hj
      by_cases hji : j = i
      · exact Or.inl hji
      · exact Or.inr ⟨hji, (hmem j).mpr hj⟩
  · show fs.lruLen = (i :: fs.lru.erase i).length
    rw [List.length_cons, List.length_erase_of_mem him, hlen]
    have hpos : 0 < fs.lru.length := List.length_pos_of_mem him
    omega

theorem forceDeleteVictim_inv (fs : CacheFS) (v : Nat) (hinv : LruInv fs) :
    LruInv (forceDeleteVictim fs v) ∧ (forceDeleteVictim fs v).lruLen = fs.lruLen := by
  unfold forceDeleteVictim
  cases hp : (fs.ds v).parent with
  | none => exact ⟨hinv, rfl⟩
  | some p =>
    split_ifs with hd
    · exact ⟨hinv, rfl⟩
    · exact ⟨lruInv_updDS fs v _ rfl hinv, rfl⟩

theorem ccEvict_inv (recur : CacheFS → Nat → CCResult) (maxCached : Nat) (fs : CacheFS)
    (hrec : ∀ fs2 j, LruInv fs2 → fs2.lruLen ≤ maxCached →
      LruInv (recur fs2 j).fs ∧ (recur fs2 j).fs.lruLen ≤ maxCached ∧
      (recur fs2 j).evictions ≤ (recur fs2 j).calls)
    (hinv : LruInv fs) (hlen : fs.lruLen ≤ maxCached + 1) :
    LruInv (ccEvict recur maxCached fs).fs ∧
    (ccEvict recur maxCached fs).fs.lruLen ≤ maxCached ∧
    (ccEvict recur maxCached fs).evictions ≤ (ccEvict recur maxCached fs).calls := by
  unfold ccEvict
  split_ifs with hover
  · cases hv : fs.lru.getLast? with
    | none =>
      exfalso
      have hnil := List.getLast?_eq_none_iff.mp hv
      have := hinv.2.2
      rw [hnil] at this
      simp at this
      omega
    | some victim =>
      dsimp only
      have hvm : victim ∈ fs.lru := List.mem_of_mem_getLast? hv
      have hvc : (fs.ds victim).cached = true := (hinv.2.1 victim).mp hvm
      have hinv2 := lruRemoveD_inv fs victim hinv hvc
      have hlen2 : (lruRemoveD fs victim).lruLen ≤ maxCached := by
        show fs.lruLen - 1 ≤ maxCached
        omega
      split_ifs with hr
      · obtain ⟨hfd, hfdlen⟩ := forceDeleteVictim_inv (lruRemoveD fs victim) victim hinv2
        obtain ⟨a, b, c⟩ := hrec (forceDeleteVictim (lruRemoveD fs victim) victim) victim hfd
          (by rw [hfdlen]; exact hlen2)
        refine ⟨a, b, ?_⟩
        simp only [ccBumpEvict]
        omega
      · exact ⟨hinv2, hlen2, le_refl 1⟩
  · refine ⟨hinv, ?_, ?_⟩
    · show fs.lruLen ≤ maxCached
      omega
    · exact Nat.zero_le 1

theorem ccGo_inv (fuel : Nat) : ∀ (mode : Bool) (maxCached : Nat) (fs : CacheFS) (i : Nat),
    LruInv fs → fs.lruLen ≤ maxCached →
    LruInv (ccGo fuel mode maxCached fs i).fs ∧
    (ccGo fuel mode maxCached fs i).fs.lruLen ≤ maxCached ∧
    (ccGo fuel mode maxCached fs i).evictions ≤ (ccGo fuel mode maxCached fs i).calls := by
  induction fuel with
  | zero =>
    intro mode maxCached fs i hinv hlen
    exact ⟨hinv, hlen, le_refl 0⟩
  | succ fuel ih =>
    intro mode maxCached fs i hinv hlen
    cases mode with
    | false =>
      simp only [ccGo]
      split_ifs with h0
      · unfold destroyStep
        cases hp : (fs.ds i).parent with
        | none =>
          exact ⟨lruInv_updDS fs i _ rfl hinv, hlen, le_refl 0⟩
        | some p =>
          dsimp only
          have hinv2 : LruInv (dsDecRefRaw (dsMarkDestroyed fs i) p) :=
            lruInv_updDS (dsMarkDestroyed fs i) p _ rfl (lruInv_updDS fs i _ rfl hinv)
          split_ifs with hr
          · exact ih true maxCached (dsDecRefRaw (dsMarkDestroyed fs i) p) p hinv2 hlen
          · exact ⟨hinv2, hlen, le_refl 0⟩
      · exact ⟨hinv, hlen, le_refl 0⟩
    | true =>
      simp only [ccGo]
      split_ifs with h1 h2 h3 h4 h5 h6
      · refine ⟨lruRemoveD_inv fs i hinv h2, ?_, ?_⟩
        · show fs.lruLen - 1 ≤ maxCached
          omega
        · exact Nat.zero_le 1
      · exact ⟨hinv, hlen, Nat.zero_le 1⟩
      · exact ⟨hinv, hlen, Nat.zero_le 1⟩
      · obtain ⟨a, b, c⟩ := ih false maxCached (lruRemoveD fs i) i
          (lruRemoveD_inv fs i hinv h5) (by show fs.lruLen - 1 ≤ maxCached; omega)
        refine ⟨a, b, ?_⟩
        simp only [ccBump]
        omega
      · obtain ⟨a, b, c⟩ := ih false maxCached fs i hinv hlen
        refine ⟨a, b, ?_⟩
        simp only [ccBump]
        omega
      · exact ⟨lruMoveFront_inv fs i hinv h6, hlen, Nat.zero_le 1⟩
      · have hc : (fs.ds i).cached = false := by
          revert h6
          cases (fs.ds i).cached <;> simp
        apply ccEvict_inv (fun fs2 j => ccGo fuel false maxCached fs2 j) maxCached
          (lruPush fs i) (fun fs2 j hI hL => ih false maxCached fs2 j hI hL)
          (lruPush_inv fs i hinv hc)
        show fs.lruLen + 1 ≤ maxCached + 1
        omega

/-- Counterexample to C3 as stated: with an LRU cap of 0, a single DecRef
on the tail of a parent chain performs two evictions, because destroying
the evicted victim drops the last reference of its parent, whose
checkCachingLocked pushes it into the LRU and evicts again.  The LRU size
bound still holds. -/
theorem DecRef_two_evictions_counterexample :
    (DecRef 10 0 fsC3 2).evictions = 2 ∧ (DecRef 10 0 fsC3 2).fs.lruLen = 0 := by
  decide

/-- Claim C3 (amended): after every DecRef that reaches zero, the LRU cache
(both the tracked counter and the number of dentries in the list) is at
most the configured cap, provided it was within the cap before; each
individual checkCachingLocked invocation performs at most one eviction of
the LRU tail victim (eviction never loops within an invocation), but
destroying a victim can recursively run the caching check of its parent, so
one DecRef may evict several dentries across the cascade. -/
theorem DecRef_lru_bounded (fuel maxCached : Nat) (fs : CacheFS) (i : Nat)
    (hinv : LruInv fs) (hlen : fs.lruLen ≤ maxCached) :
    (DecRef fuel maxCached fs i).fs.lruLen ≤ maxCached ∧
    (DecRef fuel maxCached fs i).fs.lru.length ≤ maxCached ∧
    (DecRef fuel maxCached fs i).evictions ≤ (DecRef fuel maxCached fs i).calls := by
  unfold DecRef
  split_ifs with h0
  · have hinv1 : LruInv (dsDecRefRaw fs i) := lruInv_updDS fs i _ rfl hinv
    obtain ⟨a, b, c⟩ := ccGo_inv fuel true maxCached (dsDecRefRaw fs i) i hinv1 hlen
    refine ⟨b, ?_, c⟩
    rw [← a.2.2]
    exact b
  · refine ⟨hlen, ?_, le_refl 0⟩
    show fs.lru.length ≤ maxCached
    rw [← hinv.2.2]
    exact hlen

/-- The concrete chain state satisfies the LRU invariant. -/
theorem lruInv_fsC3 : LruInv fsC3 := by
  refine ⟨List.nodup_nil, ?_, rfl⟩
  intro j
  constructor
  · intro h
    exact absurd h (List.not_mem_nil j)
  · intro h
    exfalso
    revert h
    show (dsC3 j).cached = true → False
    unfold dsC3
    split_ifs <;> simp

/-- Witness for the amended C3: the chain state with cap 0 stays within the
cap after the cascading DecRef. -/
theorem DecRef_lru_bounded_witness :
    (LruInv fsC3 ∧ fsC3.lruLen ≤ 0) ∧ (DecRef 10 0 fsC3 2).fs.lruLen ≤ 0 :=
  ⟨⟨lruInv_fsC3, Nat.le_refl 0⟩, (DecRef_lru_bounded 10 0 fsC3 2 lruInv_fsC3 (Nat.le_refl 0)).1⟩

end GoferSpec
